import Mathlib

/-!
# TravelApp (src/frontend/src/App.js)

A shallow embedding of the state cells, the event handlers and the render
functions of the `TravelApp` component.

Modelling conventions.
* Every `useState` cell of `TravelApp` and of its inner components
  (`PlaceFinder`, `PlaceAdder`, `BusTimings`) is a field of `State`.
* An event handler is a function from the state it closes over to the state
  after its setter calls, together with the list of effects it performs
  (`alert`, `console.log`), in program order.
* `Date.now()` is a natural number passed to the handler that reads it.
* The platform geolocation capability is the `Navigator` argument of
  `requestLocationPermission`.
* Form fields hold strings (they are only ever written with `e.target.value`),
  so the JavaScript test `!x` on such a field is `x = ""`.
* Numbers that are only stored and displayed (place ratings, coordinates) are
  rationals.
* The inner components are declared in the body of `TravelApp` (lines 48, 136,
  269, 380). When a handler of an inner component writes a cell of `TravelApp`,
  `TravelApp` renders again, the inner component is a new function, and the
  mounted instance is replaced by a fresh one holding its initial cells; writes
  queued on the old instance are lost. `PlaceFinder.handleSubmit` is the only
  such handler (`setTrips`, line 151), and its model includes that mount.
* Where a statement ranges over several presses of a button, the cells of the
  inner component are taken arbitrary at each press, which covers every edit
  made between two presses.
* The statements about `requestLocationPermission` concern the two location
  cells of `TravelApp`; its model leaves the cells of the inner components as
  they are.
-/

namespace TravelApp

/-! ## Data -/

/-- Element of the `places` array. -/
structure Place where
  id : Nat
  name : String
  rating : Rat
  category : String
  distance : String
  image : String
  reviews : Nat
  deriving DecidableEq, Repr

/-- Element of the `busRoutes` array. -/
structure BusRoute where
  id : Nat
  route : String
  time : String
  duration : String
  fare : String
  deriving DecidableEq, Repr

/-- Value of the `userLocation` cell when it is not `null`. -/
structure LatLng where
  lat : Rat
  lng : Rat
  deriving DecidableEq, Repr

/-- Value of the `userProfile` cell. -/
structure UserProfile where
  badge : Option String
  name : String
  deriving DecidableEq, Repr

/-- Value of the `tripData` cell of `PlaceFinder`. -/
structure TripData where
  origin : String
  destination : String
  time : String
  mode : String
  tripNumber : String
  deriving DecidableEq, Repr

/-- Element of the `trips` array: the object `{ ...tripData, id: Date.now() }`. -/
structure Trip where
  origin : String
  destination : String
  time : String
  mode : String
  tripNumber : String
  id : Nat
  deriving DecidableEq, Repr

/-- Value of the `reviewData` cell of `PlaceAdder`. -/
structure ReviewData where
  placeName : String
  category : String
  rating : Nat
  description : String
  location : String
  deriving DecidableEq, Repr

/-- Value of the `newBus` cell of `BusTimings`. -/
structure NewBus where
  route : String
  time : String
  fare : String
  deriving DecidableEq, Repr

/-- All `useState` cells of `TravelApp` and of its inner components. -/
structure State where
  activeTab : String
  userLocation : Option LatLng
  hasLocationPermission : Bool
  userProfile : UserProfile
  searchQuery : String
  trips : List Trip
  tripData : TripData
  showPlan : Bool
  reviewData : ReviewData
  showAddBus : Bool
  newBus : NewBus
  deriving DecidableEq, Repr

/-- Observable effect of a handler other than a state update. -/
inductive Effect where
  | alert (message : String)
  | consoleLog (message : String)
  deriving DecidableEq, Repr

/-- State after a handler has run, and the effects it performed, in order. -/
structure Result where
  state : State
  effects : List Effect
  deriving DecidableEq, Repr

/-- What `navigator.geolocation.getCurrentPosition` does with its two callbacks. -/
inductive PositionResult where
  | position (latitude longitude : Rat)
  | positionError
  deriving DecidableEq, Repr

/-- The `navigator` object: `geolocation` is absent or answers a position request. -/
structure Navigator where
  geolocation : Option PositionResult
  deriving DecidableEq, Repr

/-- JavaScript `!x` for a string `x`: only the empty string is falsy. -/
def jsNot (x : String) : Bool := decide (x = "")

/-! ## Constants of the component -/

/-- The `places` array (lines 13-18). -/
def places : List Place :=
  [ { id := 1, name := "Wayanad Tea Gardens", rating := 4.8, category := "Nature",
      distance := "2.5 km", image := "🏔", reviews := 234 },
    { id := 2, name := "Spice Garden Restaurant", rating := 4.6, category := "Restaurant",
      distance := "1.2 km", image := "🍽", reviews := 156 },
    { id := 3, name := "Banasura Sagar Dam", rating := 4.7, category := "Adventure",
      distance := "5.8 km", image := "🌊", reviews := 189 },
    { id := 4, name := "Edakkal Caves", rating := 4.5, category := "Historical",
      distance := "8.2 km", image := "🗿", reviews := 278 } ]

/-- The `busRoutes` array (lines 20-24). -/
def busRoutes : List BusRoute :=
  [ { id := 1, route := "Sulthan Bathery - Pala", time := "7:00 PM",
      duration := "10h 30m", fare := "Rs 280" },
    { id := 2, route := "Kalpetta - Kochi", time := "6:30 AM",
      duration := "6h 45m", fare := "Rs 240" },
    { id := 3, route := "Mananthavady - Kozhikode", time := "5:45 PM",
      duration := "4h 15m", fare := "Rs 180" } ]

/-- Initial value of the `tripData` cell; `now` is the reading of `Date.now()`. -/
def initialTripData (now : Nat) : TripData :=
  { origin := "", destination := "", time := "", mode := "bus",
    tripNumber := "TRIP" ++ toString now }

/-- Initial value of the `reviewData` cell, also the value written on acceptance. -/
def initialReviewData : ReviewData :=
  { placeName := "", category := "restaurant", rating := 5, description := "", location := "" }

/-- Initial value of the `newBus` cell, also the value written by Add Bus. -/
def initialNewBus : NewBus :=
  { route := "", time := "", fare := "" }

/-- Initial values of all cells; `now` is the reading of `Date.now()` at mount. -/
def initialState (now : Nat) : State :=
  { activeTab := "home"
    userLocation := none
    hasLocationPermission := false
    userProfile := { badge := none, name := "Traveler" }
    searchQuery := ""
    trips := []
    tripData := initialTripData now
    showPlan := false
    reviewData := initialReviewData
    showAddBus := false
    newBus := initialNewBus }

/-! ## Location permission (lines 30-46) -/

/-- The function `requestLocationPermission`, with the callback that the platform fires. -/
def requestLocationPermission (navigator : Navigator) (s : State) : Result :=
  match navigator.geolocation with
  | none => { state := s, effects := [] }
  | some (.position latitude longitude) =>
      { state := { s with userLocation := some { lat := latitude, lng := longitude },
                          hasLocationPermission := true },
        effects := [] }
  | some .positionError =>
      { state := { s with hasLocationPermission := false },
        effects := [.consoleLog "Location access denied"] }

/-! ## HomeScreen (lines 48-134) -/

/-- What `HomeScreen` renders, without layout. -/
structure HomeScreen.View where
  locationActive : Bool
  categories : List String
  heading : String
  listing : List Place
  deriving DecidableEq, Repr

/-- The labels of the category buttons (line 92). -/
def HomeScreen.categories : List String :=
  ["All", "Nature", "Restaurant", "Adventure", "Historical"]

/-- Render of `HomeScreen`: the listing is `places.map`, one card per element. -/
def HomeScreen.view (s : State) : HomeScreen.View :=
  { locationActive := s.hasLocationPermission
    categories := HomeScreen.categories
    heading := if s.hasLocationPermission then "Near You" else "Popular Places"
    listing := places.map id }

/-- Pressing a category button: the button element has no `onClick`, so no code runs. -/
def HomeScreen.pressCategory (_category : String) (s : State) : State := s

/-! ## PlaceFinder (lines 136-267) -/

/-- The object `{ ...tripData, id: now }`. -/
def PlaceFinder.newTrip (tripData : TripData) (now : Nat) : Trip :=
  { origin := tripData.origin, destination := tripData.destination, time := tripData.time,
    mode := tripData.mode, tripNumber := tripData.tripNumber, id := now }

/-- The mount of `PlaceFinder`: `useState` installs the initial cells (lines 137-144);
`now` is the reading of `Date.now()` in line 142. -/
def PlaceFinder.mount (now : Nat) (s : State) : State :=
  { s with tripData := initialTripData now, showPlan := false }

/-- The handler `handleSubmit` of `PlaceFinder`, up to the render that follows it; `now` is
the reading of `Date.now()` in line 151. The rejecting path calls no setter. On the
accepting path `setTrips` writes a cell of `TravelApp`, so `TravelApp` renders again and
declares `PlaceFinder` anew (line 136): the mounted instance is discarded together with
the `setShowPlan(true)` queued on it, and a new instance is mounted with the initial
cells, `remountNow` being the reading of `Date.now()` at that mount. -/
def PlaceFinder.handleSubmit (now remountNow : Nat) (s : State) : Result :=
  if jsNot s.tripData.origin || jsNot s.tripData.destination || jsNot s.tripData.time then
    { state := s, effects := [.alert "Please fill in all required fields"] }
  else
    { state := PlaceFinder.mount remountNow
        { s with trips := s.trips ++ [PlaceFinder.newTrip s.tripData now],
                 showPlan := true },
      effects := [] }

/-- The array `samplePlan.steps` (lines 155-163). -/
def PlaceFinder.samplePlan.steps : List String :=
  [ "Take KSRTC bus from Sulthan Bathery to Pala Kottaramattom bus stand",
    "Journey time: 10h 30m, Arrival: 5:30 AM next day",
    "From Pala, take auto to IIIT Kottayam, Nechipuzhoor (Rs 50-80)",
    "Alternative: Wait till 7:15 AM for bus to Ramapuram via Nechipuzhoor (Rs 15)",
    "Get down at Nechipuzhoor and take auto to IIIT Kottayam" ]

/-- What `PlaceFinder` renders: the form, or the plan with its numbered steps. -/
inductive PlaceFinder.View where
  | form (tripData : TripData)
  | plan (route : String) (departure : String) (steps : List (Nat × String))
  deriving DecidableEq, Repr

/-- Render of `PlaceFinder` (lines 169-264): `samplePlan.steps.map` numbers from 1. -/
def PlaceFinder.view (s : State) : PlaceFinder.View :=
  if !s.showPlan then
    .form s.tripData
  else
    .plan (s.tripData.origin ++ " → " ++ s.tripData.destination)
      ("Departure: " ++ s.tripData.time ++ " via " ++ s.tripData.mode)
      (PlaceFinder.samplePlan.steps.enum.map fun p => (p.1 + 1, p.2))

/-- The button Plan Another Trip (line 258). -/
def PlaceFinder.planAnother (s : State) : State :=
  { s with showPlan := false }

/-! ## PlaceAdder (lines 269-378) -/

/-- The handler `handleSubmit` of `PlaceAdder`. -/
def PlaceAdder.handleSubmit (s : State) : Result :=
  if jsNot s.reviewData.placeName || jsNot s.reviewData.description then
    { state := s, effects := [.alert "Please fill in all required fields"] }
  else
    { state := { s with reviewData := { placeName := "", category := "restaurant", rating := 5,
                                        description := "", location := "" } },
      effects := [.alert "Place/Review submitted successfully!"] }

/-- The values offered by the rating buttons (line 323). -/
def PlaceAdder.stars : List Nat := [1, 2, 3, 4, 5]

/-- The handler of a rating button (line 327). -/
def PlaceAdder.setRating (star : Nat) (s : State) : State :=
  { s with reviewData := { s.reviewData with rating := star } }

/-! ## BusTimings (lines 380-488) -/

/-- What `BusTimings` renders, without layout. -/
structure BusTimings.View where
  enablePrompt : Bool
  heading : String
  routes : List BusRoute
  addForm : Option NewBus
  deriving DecidableEq, Repr

/-- Render of `BusTimings`: the route cards are `busRoutes.map`. -/
def BusTimings.view (s : State) : BusTimings.View :=
  { enablePrompt := !s.hasLocationPermission
    heading := if s.hasLocationPermission then "Buses Near You" else "Popular Routes"
    routes := busRoutes.map id
    addForm := if s.showAddBus then some s.newBus else none }

/-- The button Add Missing Bus (line 430). -/
def BusTimings.showForm (s : State) : State :=
  { s with showAddBus := true }

/-- The `onClick` of the button Add Bus (lines 466-470). -/
def BusTimings.addBus (s : State) : Result :=
  { state := { s with showAddBus := false, newBus := { route := "", time := "", fare := "" } },
    effects := [.alert "Bus route added successfully!"] }

/-- The `onClick` of the button Cancel (line 477). -/
def BusTimings.cancel (s : State) : State :=
  { s with showAddBus := false }

/-! ## Sequences of submissions -/

/-- One press of Generate Travel Plan: the form holds `tripData`, `Date.now()` reads `now`
in the handler and `remountNow` at the mount that follows an accepted press.
Between two presses the cells of `PlaceFinder` may change in any way (field edits,
Plan Another Trip, a fresh mount); the `trips` cell is written by `handleSubmit` only. -/
structure Submission where
  tripData : TripData
  now : Nat
  remountNow : Nat
  deriving DecidableEq, Repr

/-- The submission passes the test of line 147. -/
def Submission.complete (r : Submission) : Prop :=
  r.tripData.origin ≠ "" ∧ r.tripData.destination ≠ "" ∧ r.tripData.time ≠ ""

instance (r : Submission) : Decidable r.complete := by
  unfold Submission.complete; infer_instance

/-- State after one press with the form holding `r.tripData`. -/
def PlaceFinder.submit (s : State) (r : Submission) : State :=
  (PlaceFinder.handleSubmit r.now r.remountNow
    { s with tripData := r.tripData, showPlan := false }).state

/-- State after the presses of `rs`, one after another. -/
def PlaceFinder.submitAll (s : State) (rs : List Submission) : State :=
  rs.foldl PlaceFinder.submit s

/-- The steps shown by a render of `PlaceFinder`, when it shows a plan. -/
def PlaceFinder.View.steps : PlaceFinder.View → Option (List String)
  | .form _ => none
  | .plan _ _ steps => some (steps.map Prod.snd)

/-! ## Sample inputs -/

/-- A filled trip form. -/
def sampleTripData : TripData :=
  { origin := "Sulthan Bathery", destination := "IIIT Kottayam", time := "19:00",
    mode := "bus", tripNumber := "TRIP1700000000000" }

/-- A second filled trip form. -/
def sampleTripData2 : TripData :=
  { origin := "Kalpetta", destination := "Kochi", time := "06:30",
    mode := "car", tripNumber := "TRIP1700000000000" }

/-- A trip form with the departure time missing. -/
def sampleTripDataNoTime : TripData :=
  { origin := "Sulthan Bathery", destination := "IIIT Kottayam", time := "",
    mode := "train", tripNumber := "TRIP1700000000000" }

/-- A filled review form with an empty location. -/
def sampleReviewData : ReviewData :=
  { placeName := "Cafe", category := "nature", rating := 3, description := "nice", location := "" }

/-- A state with one stored trip, a granted location and filled forms. -/
def sampleState : State :=
  { activeTab := "finder"
    userLocation := some { lat := 11.6, lng := 76.1 }
    hasLocationPermission := true
    userProfile := { badge := none, name := "Traveler" }
    searchQuery := ""
    trips := [PlaceFinder.newTrip sampleTripData2 1700000000001]
    tripData := sampleTripData
    showPlan := false
    reviewData := sampleReviewData
    showAddBus := true
    newBus := { route := "A-B", time := "07:00", fare := "Rs 100" } }

/-! ## Events of the review form and location resolutions -/

/-- The `onChange` of the place-name input (line 298). -/
def PlaceAdder.setPlaceName (value : String) (s : State) : State :=
  { s with reviewData := { s.reviewData with placeName := value } }

/-- The `onChange` of the category select (line 309). -/
def PlaceAdder.setCategory (value : String) (s : State) : State :=
  { s with reviewData := { s.reviewData with category := value } }

/-- The `onChange` of the description textarea (line 340). -/
def PlaceAdder.setDescription (value : String) (s : State) : State :=
  { s with reviewData := { s.reviewData with description := value } }

/-- The `onChange` of the location input (line 353). -/
def PlaceAdder.setLocation (value : String) (s : State) : State :=
  { s with reviewData := { s.reviewData with location := value } }

/-- The mount of `PlaceAdder`: `useState` installs the initial form (lines 270-276). -/
def PlaceAdder.mount (s : State) : State :=
  { s with reviewData := { placeName := "", category := "restaurant", rating := 5,
                           description := "", location := "" } }

/-- An event on the screen of `PlaceAdder`. One rating button is rendered per element of
the array of line 323, so a star press is named by the position of its button. -/
inductive PlaceAdder.Event where
  | mount
  | editPlaceName (value : String)
  | selectCategory (value : String)
  | pressStar (button : Fin PlaceAdder.stars.length)
  | editDescription (value : String)
  | editLocation (value : String)
  | submit
  deriving DecidableEq, Repr

/-- State after one event of the review form. -/
def PlaceAdder.apply (s : State) : PlaceAdder.Event → State
  | .mount => PlaceAdder.mount s
  | .editPlaceName value => PlaceAdder.setPlaceName value s
  | .selectCategory value => PlaceAdder.setCategory value s
  | .pressStar button => PlaceAdder.setRating (PlaceAdder.stars.get button) s
  | .editDescription value => PlaceAdder.setDescription value s
  | .editLocation value => PlaceAdder.setLocation value s
  | .submit => (PlaceAdder.handleSubmit s).state

/-- State after the events of `events`, one after another. -/
def PlaceAdder.run (s : State) (events : List PlaceAdder.Event) : State :=
  events.foldl PlaceAdder.apply s

/-- State after one call of `requestLocationPermission` answered by `navigator`. -/
def resolve (s : State) (navigator : Navigator) : State :=
  (requestLocationPermission navigator s).state

/-- State after the location resolutions of `navigators`, one after another (the first
from the effect of line 27, the later ones from the button Enable Location, line 392). -/
def resolveAll (s : State) (navigators : List Navigator) : State :=
  navigators.foldl resolve s

/-- The states in which the program calls `requestLocationPermission`. There are two call
sites: the effect of lines 26-28, run once after the first render, when every cell holds
its initial value, and the button Enable Location (line 392), which `BusTimings` renders
only under `!hasLocationPermission` (line 388). -/
def requestLocationPermission.callSite (s : State) : Prop :=
  (∃ now, s = initialState now) ∨
  (s.activeTab = "bus" ∧ (BusTimings.view s).enablePrompt = true)

/-! ## Helper lemmas -/

theorem jsNot_eq_true_iff (x : String) : jsNot x = true ↔ x = "" := by
  simp [jsNot]

theorem jsNot_eq_false_iff (x : String) : jsNot x = false ↔ x ≠ "" := by
  simp [jsNot]

/-- The rejecting branch of `PlaceFinder.handleSubmit`. -/
theorem PlaceFinder.handleSubmit_of_missing (now remountNow : Nat) (s : State)
    (h : s.tripData.origin = "" ∨ s.tripData.destination = "" ∨ s.tripData.time = "") :
    PlaceFinder.handleSubmit now remountNow s =
      { state := s, effects := [.alert "Please fill in all required fields"] } := by
  have hc : (jsNot s.tripData.origin || jsNot s.tripData.destination
      || jsNot s.tripData.time) = true := by
    simp only [Bool.or_eq_true, jsNot_eq_true_iff]
    tauto
  simp [PlaceFinder.handleSubmit, hc]

/-- The accepting branch of `PlaceFinder.handleSubmit`. -/
theorem PlaceFinder.handleSubmit_of_filled (now remountNow : Nat) (s : State)
    (ho : s.tripData.origin ≠ "") (hd : s.tripData.destination ≠ "")
    (ht : s.tripData.time ≠ "") :
    PlaceFinder.handleSubmit now remountNow s =
      { state := PlaceFinder.mount remountNow
          { s with trips := s.trips ++ [PlaceFinder.newTrip s.tripData now],
                   showPlan := true },
        effects := [] } := by
  have hc : (jsNot s.tripData.origin || jsNot s.tripData.destination
      || jsNot s.tripData.time) = false := by
    simp [jsNot, ho, hd, ht]
  simp [PlaceFinder.handleSubmit, hc]

/-- One complete submission appends its trip to the `trips` cell. -/
theorem PlaceFinder.submit_trips (s : State) (r : Submission) (h : r.complete) :
    (PlaceFinder.submit s r).trips = s.trips ++ [PlaceFinder.newTrip r.tripData r.now] := by
  obtain ⟨ho, hd, ht⟩ := h
  unfold PlaceFinder.submit
  rw [PlaceFinder.handleSubmit_of_filled _ _ _ ho hd ht]
  rfl

/-- Complete submissions append their trips to the `trips` cell, in order. -/
theorem PlaceFinder.submitAll_trips (rs : List Submission) :
    ∀ s : State, (∀ r ∈ rs, r.complete) →
      (PlaceFinder.submitAll s rs).trips =
        s.trips ++ rs.map fun r => PlaceFinder.newTrip r.tripData r.now := by
  induction rs with
  | nil => intro s _; simp [PlaceFinder.submitAll]
  | cons r rs ih =>
    intro s h
    have hr : r.complete := h r (List.mem_cons_self _ _)
    have hrs : ∀ x ∈ rs, x.complete := fun x hx => h x (List.mem_cons_of_mem _ hx)
    have step := ih (PlaceFinder.submit s r) hrs
    simp only [PlaceFinder.submitAll, List.foldl_cons] at step ⊢
    rw [step, PlaceFinder.submit_trips s r hr]
    simp

/-- Every rating button carries a value between 1 and 5. -/
theorem PlaceAdder.stars_get_range (button : Fin PlaceAdder.stars.length) :
    1 ≤ PlaceAdder.stars.get button ∧ PlaceAdder.stars.get button ≤ 5 := by
  revert button
  decide

/-- One event of the review form keeps the rating between 1 and 5. -/
theorem PlaceAdder.apply_rating (s : State) (e : PlaceAdder.Event)
    (h : 1 ≤ s.reviewData.rating ∧ s.reviewData.rating ≤ 5) :
    1 ≤ (PlaceAdder.apply s e).reviewData.rating ∧
    (PlaceAdder.apply s e).reviewData.rating ≤ 5 := by
  cases e with
  | mount => simp [PlaceAdder.apply, PlaceAdder.mount]
  | editPlaceName value => exact h
  | selectCategory value => exact h
  | pressStar button => exact PlaceAdder.stars_get_range button
  | editDescription value => exact h
  | editLocation value => exact h
  | submit =>
    show 1 ≤ (PlaceAdder.handleSubmit s).state.reviewData.rating ∧
      (PlaceAdder.handleSubmit s).state.reviewData.rating ≤ 5
    unfold PlaceAdder.handleSubmit
    split
    · exact h
    · simp

/-- Any sequence of events of the review form keeps the rating between 1 and 5. -/
theorem PlaceAdder.run_rating (events : List PlaceAdder.Event) :
    ∀ s : State, (1 ≤ s.reviewData.rating ∧ s.reviewData.rating ≤ 5) →
      1 ≤ (PlaceAdder.run s events).reviewData.rating ∧
      (PlaceAdder.run s events).reviewData.rating ≤ 5 := by
  induction events with
  | nil => intro s h; exact h
  | cons e events ih =>
    intro s h
    exact ih (PlaceAdder.apply s e) (PlaceAdder.apply_rating s e h)

/-- One location resolution keeps: a stored location comes from a successful resolution
seen so far, and a true flag has a stored location. -/
theorem resolve_invariant (seen : List Navigator) (s : State) (navigator : Navigator)
    (hloc : ∀ loc, s.userLocation = some loc →
      ({ geolocation := some (.position loc.lat loc.lng) } : Navigator) ∈ seen)
    (hflag : s.hasLocationPermission = true → ∃ loc, s.userLocation = some loc) :
    (∀ loc, (resolve s navigator).userLocation = some loc →
      ({ geolocation := some (.position loc.lat loc.lng) } : Navigator)
        ∈ seen ++ [navigator]) ∧
    ((resolve s navigator).hasLocationPermission = true →
      ∃ loc, (resolve s navigator).userLocation = some loc) := by
  rcases navigator with ⟨_ | ⟨latitude, longitude⟩ | _⟩
  · refine ⟨fun loc h => ?_, hflag⟩
    exact List.mem_append_left _ (hloc loc h)
  · refine ⟨fun loc h => ?_, fun _ => ⟨_, rfl⟩⟩
    have hl : loc = { lat := latitude, lng := longitude } := by
      simpa [resolve, requestLocationPermission] using h.symm
    subst hl
    exact List.mem_append_right _ (List.mem_singleton_self _)
  · refine ⟨fun loc h => ?_, fun h => ?_⟩
    · exact List.mem_append_left _ (hloc loc h)
    · simp [resolve, requestLocationPermission] at h

/-- Any sequence of location resolutions keeps the invariant of `resolve_invariant`. -/
theorem resolveAll_invariant (navigators : List Navigator) :
    ∀ (seen : List Navigator) (s : State),
      (∀ loc, s.userLocation = some loc →
        ({ geolocation := some (.position loc.lat loc.lng) } : Navigator) ∈ seen) →
      (s.hasLocationPermission = true → ∃ loc, s.userLocation = some loc) →
      (∀ loc, (resolveAll s navigators).userLocation = some loc →
        ({ geolocation := some (.position loc.lat loc.lng) } : Navigator)
          ∈ seen ++ navigators) ∧
      ((resolveAll s navigators).hasLocationPermission = true →
        ∃ loc, (resolveAll s navigators).userLocation = some loc) := by
  induction navigators with
  | nil =>
    intro seen s hloc hflag
    refine ⟨fun loc h => ?_, hflag⟩
    simpa [resolveAll] using hloc loc h
  | cons navigator navigators ih =>
    intro seen s hloc hflag
    obtain ⟨hloc1, hflag1⟩ := resolve_invariant seen s navigator hloc hflag
    have step := ih (seen ++ [navigator]) (resolve s navigator) hloc1 hflag1
    simpa [resolveAll, List.append_assoc] using step

/-- At both call sites of `requestLocationPermission` the flag is false. -/
theorem requestLocationPermission.callSite_flag (s : State)
    (h : requestLocationPermission.callSite s) : s.hasLocationPermission = false := by
  rcases h with ⟨now, rfl⟩ | ⟨_, hprompt⟩
  · rfl
  · simpa [BusTimings.view] using hprompt

/-- The plan branch of the render of `PlaceFinder` shows the steps of `samplePlan`. -/
theorem PlaceFinder.view_steps_of_showPlan (s : State) (h : s.showPlan = true) :
    (PlaceFinder.view s).steps = some PlaceFinder.samplePlan.steps := by
  unfold PlaceFinder.view
  rw [h]
  rfl

/-! ## PlaceFinder: validation and the trip list -/

/-- C1: when origin, destination or departure time is empty, `PlaceFinder.handleSubmit`
changes no cell: the trip list afterwards equals the trip list before (same length, same
elements), `showPlan` keeps its value, so a form that was shown is still shown and no plan
appears; the only effect is the alert asking for the required fields. -/
theorem PlaceFinder_handleSubmit_rejects_incomplete (now remountNow : Nat) (s : State)
    (h : s.tripData.origin = "" ∨ s.tripData.destination = "" ∨ s.tripData.time = "") :
    (PlaceFinder.handleSubmit now remountNow s).state.trips = s.trips ∧
    (PlaceFinder.handleSubmit now remountNow s).state.trips.length = s.trips.length ∧
    (PlaceFinder.handleSubmit now remountNow s).state.showPlan = s.showPlan ∧
    (PlaceFinder.handleSubmit now remountNow s).state = s ∧
    (PlaceFinder.handleSubmit now remountNow s).effects = [.alert "Please fill in all required fields"] ∧
    (s.showPlan = false →
      (PlaceFinder.handleSubmit now remountNow s).state.showPlan = false ∧
      PlaceFinder.view (PlaceFinder.handleSubmit now remountNow s).state = .form s.tripData) := by
  rw [PlaceFinder.handleSubmit_of_missing now remountNow s h]
  refine ⟨rfl, rfl, rfl, rfl, rfl, fun hs => ⟨hs, ?_⟩⟩
  simp [PlaceFinder.view, hs]

/-- Witness of C1: a state with one stored trip whose form lacks the departure time. -/
theorem PlaceFinder_handleSubmit_rejects_incomplete_witness :
    ({ sampleState with tripData := sampleTripDataNoTime }).tripData.time = "" ∧
    (PlaceFinder.handleSubmit 1700000000002 1700000000003
        { sampleState with tripData := sampleTripDataNoTime }).state.trips
      = [PlaceFinder.newTrip sampleTripData2 1700000000001] ∧
    (PlaceFinder.handleSubmit 1700000000002 1700000000003
        { sampleState with tripData := sampleTripDataNoTime }).state.showPlan = false :=
  ⟨rfl,
    (PlaceFinder_handleSubmit_rejects_incomplete 1700000000002 1700000000003
      { sampleState with tripData := sampleTripDataNoTime } (Or.inr (Or.inr rfl))).1,
    (PlaceFinder_handleSubmit_rejects_incomplete 1700000000002 1700000000003
      { sampleState with tripData := sampleTripDataNoTime } (Or.inr (Or.inr rfl))).2.2.1⟩

/-- C2: starting from the empty trip list, N complete submissions (origin, destination and
departure time all non-empty) pressed one after another leave a trip list of length N whose
i-th element carries the origin, destination, time and mode of the i-th submission; and
each accepted `PlaceFinder.handleSubmit` keeps the earlier elements in place and adds
exactly one element at the end. -/
theorem PlaceFinder_trips_append_only (s : State) (rs : List Submission)
    (hempty : s.trips = []) (hcomplete : ∀ r ∈ rs, r.complete) :
    (PlaceFinder.submitAll s rs).trips.length = rs.length ∧
    (∀ (i : Nat) (hi : i < rs.length), ∃ t : Trip,
      (PlaceFinder.submitAll s rs).trips[i]? = some t ∧
      t.origin = (rs.get ⟨i, hi⟩).tripData.origin ∧
      t.destination = (rs.get ⟨i, hi⟩).tripData.destination ∧
      t.time = (rs.get ⟨i, hi⟩).tripData.time ∧
      t.mode = (rs.get ⟨i, hi⟩).tripData.mode) ∧
    (∀ (now remountNow : Nat) (s1 : State),
      s1.tripData.origin ≠ "" → s1.tripData.destination ≠ "" → s1.tripData.time ≠ "" →
      (PlaceFinder.handleSubmit now remountNow s1).state.trips
        = s1.trips ++ [PlaceFinder.newTrip s1.tripData now] ∧
      (PlaceFinder.handleSubmit now remountNow s1).state.trips.length = s1.trips.length + 1 ∧
      (PlaceFinder.handleSubmit now remountNow s1).state.trips.take s1.trips.length = s1.trips) := by
  have htrips := PlaceFinder.submitAll_trips rs s hcomplete
  rw [hempty, List.nil_append] at htrips
  refine ⟨by rw [htrips, List.length_map], ?_, ?_⟩
  · intro i hi
    refine ⟨PlaceFinder.newTrip (rs.get ⟨i, hi⟩).tripData (rs.get ⟨i, hi⟩).now, ?_,
      rfl, rfl, rfl, rfl⟩
    rw [htrips, List.getElem?_map, List.getElem?_eq_getElem hi]
    rfl
  · intro now remountNow s1 ho hd ht
    rw [PlaceFinder.handleSubmit_of_filled now remountNow s1 ho hd ht]
    refine ⟨rfl, by simp [PlaceFinder.mount], by simp [PlaceFinder.mount]⟩

/-- Witness of C2: two complete submissions from the initial state. -/
theorem PlaceFinder_trips_append_only_witness :
    (initialState 1700000000000).trips = [] ∧
    (∀ r ∈ [({ tripData := sampleTripData, now := 1700000000005, remountNow := 1700000000006 } : Submission),
            { tripData := sampleTripData2, now := 1700000000009, remountNow := 1700000000010 }], r.complete) ∧
    (PlaceFinder.submitAll (initialState 1700000000000)
      [{ tripData := sampleTripData, now := 1700000000005, remountNow := 1700000000006 },
       { tripData := sampleTripData2, now := 1700000000009, remountNow := 1700000000010 }]).trips.length = 2 :=
  ⟨rfl, by decide,
    (PlaceFinder_trips_append_only (initialState 1700000000000)
      [{ tripData := sampleTripData, now := 1700000000005, remountNow := 1700000000006 },
       { tripData := sampleTripData2, now := 1700000000009, remountNow := 1700000000010 }] rfl (by decide)).1⟩

/-! ## PlaceAdder: validation -/

/-- C3: `PlaceAdder.handleSubmit` answers with the validation alert exactly when
`placeName` or `description` is empty, and with the success alert exactly when both are
non-empty, whatever the category, the rating and the location (an empty one included). -/
theorem PlaceAdder_handleSubmit_validation (s : State) :
    ((PlaceAdder.handleSubmit s).effects = [.alert "Please fill in all required fields"] ↔
      (s.reviewData.placeName = "" ∨ s.reviewData.description = "")) ∧
    ((PlaceAdder.handleSubmit s).effects = [.alert "Place/Review submitted successfully!"] ↔
      (s.reviewData.placeName ≠ "" ∧ s.reviewData.description ≠ "")) := by
  by_cases hp : s.reviewData.placeName = "" <;> by_cases hd : s.reviewData.description = "" <;>
    simp [PlaceAdder.handleSubmit, jsNot, hp, hd]

/-! ## BusTimings: the Add Bus action -/

/-- C4: evaluation of the Add Bus action on the filled form A-B, 07:00, Rs 100: the handler
announces that the route was added, yet the route list rendered afterwards is the list
rendered before, still three routes long, and holds no route labelled A-B. -/
theorem BusTimings_addBus_does_not_append :
    sampleState.newBus = { route := "A-B", time := "07:00", fare := "Rs 100" } ∧
    (BusTimings.addBus sampleState).effects = [.alert "Bus route added successfully!"] ∧
    (BusTimings.view (BusTimings.addBus sampleState).state).routes
      = (BusTimings.view sampleState).routes ∧
    (BusTimings.view (BusTimings.addBus sampleState).state).routes.length = 3 ∧
    (∀ r ∈ (BusTimings.view (BusTimings.addBus sampleState).state).routes, r.route ≠ "A-B") := by
  refine ⟨rfl, rfl, rfl, rfl, ?_⟩
  decide

/-- C5: evaluation of the Add Bus action on a form whose route label is empty: the handler
performs no validation, its only effect is the success alert (not the alert asking for the
required fields), and the route list keeps its three routes. -/
theorem BusTimings_addBus_accepts_empty_label :
    (BusTimings.addBus
        { sampleState with newBus := { route := "", time := "07:00", fare := "Rs 100" } }).effects
      = [.alert "Bus route added successfully!"] ∧
    (BusTimings.addBus
        { sampleState with newBus := { route := "", time := "07:00", fare := "Rs 100" } }).effects
      ≠ [.alert "Please fill in all required fields"] ∧
    (BusTimings.addBus (initialState 1700000000000)).effects
      = [.alert "Bus route added successfully!"] ∧
    (BusTimings.view (BusTimings.addBus
        { sampleState with newBus := { route := "", time := "07:00", fare := "Rs 100" } }).state
      ).routes.length = 3 := by
  refine ⟨rfl, ?_, rfl, rfl⟩
  decide

/-! ## HomeScreen: the place listing -/

/-- C6, as stated, fails: Nature is an offered category other than All, and the listing
rendered after pressing it still holds Spice Garden Restaurant, a Restaurant place, so it is
not the list of the Nature places. -/
theorem HomeScreen_listing_ignores_category :
    "Nature" ∈ HomeScreen.categories ∧ "Nature" ≠ "All" ∧
    (∃ p ∈ (HomeScreen.view (HomeScreen.pressCategory "Nature" (initialState 0))).listing,
      p.name = "Spice Garden Restaurant" ∧ p.category ≠ "Nature") ∧
    (HomeScreen.view (HomeScreen.pressCategory "Nature" (initialState 0))).listing
      ≠ places.filter (fun p => p.category = "Nature") := by
  refine ⟨by decide, by decide, ?_, ?_⟩
  · exact ⟨_, List.mem_cons_of_mem _ (List.mem_cons_self _ _), rfl, by decide⟩
  · intro h
    have hlen := congrArg List.length h
    revert hlen
    decide

/-- C6, amended: for every category label (All included) and in every state, the listing
rendered after pressing the category button is the whole `places` catalog in catalog order,
as it is with no button pressed; pressing a category button changes no cell. -/
theorem HomeScreen_listing_is_catalog (category : String) (s : State) :
    (HomeScreen.view (HomeScreen.pressCategory category s)).listing = places ∧
    (HomeScreen.view s).listing = places ∧
    HomeScreen.pressCategory category s = s := by
  refine ⟨?_, ?_, rfl⟩ <;> simp [HomeScreen.view, HomeScreen.pressCategory]

/-! ## PlaceFinder: identifiers and the plan -/

/-- C7, as stated, fails: two complete submissions that read the same clock value are both
accepted and their trips carry the same `id`. -/
theorem PlaceFinder_trip_ids_collide :
    (∀ r ∈ [({ tripData := sampleTripData, now := 1700000000005, remountNow := 1700000000005 } : Submission),
            { tripData := sampleTripData2, now := 1700000000005, remountNow := 1700000000005 }], r.complete) ∧
    (PlaceFinder.submitAll (initialState 1700000000000)
      [{ tripData := sampleTripData, now := 1700000000005, remountNow := 1700000000005 },
       { tripData := sampleTripData2, now := 1700000000005, remountNow := 1700000000005 }]).trips.map Trip.id
      = [1700000000005, 1700000000005] ∧
    ¬ ((PlaceFinder.submitAll (initialState 1700000000000)
      [{ tripData := sampleTripData, now := 1700000000005, remountNow := 1700000000005 },
       { tripData := sampleTripData2, now := 1700000000005, remountNow := 1700000000005 }]).trips.map Trip.id).Nodup := by
  refine ⟨by decide, by decide, by decide⟩

/-- C7, amended: in the trip list reached from the empty list by complete submissions, the
`id` of the i-th trip is the clock value read by the i-th submission, so the identifiers
are pairwise distinct exactly when those clock readings are pairwise distinct. -/
theorem PlaceFinder_trip_ids_are_clock_readings (s : State) (rs : List Submission)
    (hempty : s.trips = []) (hcomplete : ∀ r ∈ rs, r.complete) :
    (PlaceFinder.submitAll s rs).trips.map Trip.id = rs.map Submission.now ∧
    (((PlaceFinder.submitAll s rs).trips.map Trip.id).Nodup ↔
      (rs.map Submission.now).Nodup) := by
  have hids : (PlaceFinder.submitAll s rs).trips.map Trip.id = rs.map Submission.now := by
    rw [PlaceFinder.submitAll_trips rs s hcomplete, hempty, List.nil_append, List.map_map]
    rfl
  exact ⟨hids, by rw [hids]⟩

/-- Witness of C7, amended: two complete submissions with distinct clock readings. -/
theorem PlaceFinder_trip_ids_are_clock_readings_witness :
    (initialState 1700000000000).trips = [] ∧
    (∀ r ∈ [({ tripData := sampleTripData, now := 1700000000005, remountNow := 1700000000006 } : Submission),
            { tripData := sampleTripData2, now := 1700000000009, remountNow := 1700000000010 }], r.complete) ∧
    (PlaceFinder.submitAll (initialState 1700000000000)
      [{ tripData := sampleTripData, now := 1700000000005, remountNow := 1700000000006 },
       { tripData := sampleTripData2, now := 1700000000009, remountNow := 1700000000010 }]).trips.map Trip.id
      = [1700000000005, 1700000000009] :=
  ⟨rfl, by decide,
    (PlaceFinder_trip_ids_are_clock_readings (initialState 1700000000000)
      [{ tripData := sampleTripData, now := 1700000000005, remountNow := 1700000000006 },
       { tripData := sampleTripData2, now := 1700000000009, remountNow := 1700000000010 }] rfl (by decide)).1⟩

/-- C8: evaluation of an accepted trip request. The trip is stored and nothing is
alerted, but the render that follows shows the empty form and no step: `PlaceFinder` has
been mounted anew, so `showPlan` is false. The five strings of `samplePlan.steps`, which
the plan branch of the render shows in their declared order for every state with
`showPlan` true, whatever the request, are therefore not shown after the request. -/
theorem PlaceFinder_plan_lost_on_remount :
    (sampleState.tripData.origin ≠ "" ∧ sampleState.tripData.destination ≠ "" ∧
      sampleState.tripData.time ≠ "") ∧
    (PlaceFinder.handleSubmit 1700000000005 1700000000006 sampleState).state.trips
      = sampleState.trips ++ [PlaceFinder.newTrip sampleTripData 1700000000005] ∧
    (PlaceFinder.handleSubmit 1700000000005 1700000000006 sampleState).effects = [] ∧
    (PlaceFinder.handleSubmit 1700000000005 1700000000006 sampleState).state.showPlan
      = false ∧
    PlaceFinder.view (PlaceFinder.handleSubmit 1700000000005 1700000000006 sampleState).state
      = .form (initialTripData 1700000000006) ∧
    (PlaceFinder.view
      (PlaceFinder.handleSubmit 1700000000005 1700000000006 sampleState).state).steps
      = none ∧
    (∀ s : State, s.showPlan = true →
      (PlaceFinder.view s).steps
        = some
          [ "Take KSRTC bus from Sulthan Bathery to Pala Kottaramattom bus stand",
            "Journey time: 10h 30m, Arrival: 5:30 AM next day",
            "From Pala, take auto to IIIT Kottayam, Nechipuzhoor (Rs 50-80)",
            "Alternative: Wait till 7:15 AM for bus to Ramapuram via Nechipuzhoor (Rs 15)",
            "Get down at Nechipuzhoor and take auto to IIIT Kottayam" ]) := by
  refine ⟨by decide, rfl, rfl, rfl, rfl, rfl, ?_⟩
  intro s h
  exact PlaceFinder.view_steps_of_showPlan s h

/-! ## Location permission -/

/-- C9: at every state in which the program calls `requestLocationPermission`, a
non-success outcome (the geolocation capability is unavailable, or the error callback
fires) leaves `hasLocationPermission` false and raises no alert; the error callback does
so in whatever later state it fires, its only effect being a console log; and the flag is
true after a call only when the success callback fired. -/
theorem requestLocationPermission_non_success_denied (navigator : Navigator) (s : State)
    (hsite : requestLocationPermission.callSite s)
    (hfail : navigator.geolocation = none ∨ navigator.geolocation = some .positionError) :
    (requestLocationPermission navigator s).state.hasLocationPermission = false ∧
    (∀ message : String,
      Effect.alert message ∉ (requestLocationPermission navigator s).effects) ∧
    (∀ later : State,
      (requestLocationPermission { geolocation := some .positionError }
        later).state.hasLocationPermission = false ∧
      (requestLocationPermission { geolocation := some .positionError } later).effects
        = [.consoleLog "Location access denied"]) ∧
    (∀ other : Navigator,
      (requestLocationPermission other s).state.hasLocationPermission = true →
      ∃ latitude longitude, other.geolocation = some (.position latitude longitude)) ∧
    (∀ latitude longitude : Rat,
      (requestLocationPermission { geolocation := some (.position latitude longitude) }
        s).state.hasLocationPermission = true) := by
  have hflag := requestLocationPermission.callSite_flag s hsite
  refine ⟨?_, ?_, fun _ => ⟨rfl, rfl⟩, ?_, fun _ _ => rfl⟩
  · rcases navigator with ⟨geo⟩
    rcases hfail with h | h <;> simp only at h <;> subst h <;>
      simp [requestLocationPermission, hflag]
  · intro message
    rcases navigator with ⟨geo⟩
    rcases hfail with h | h <;> simp only at h <;> subst h <;>
      simp [requestLocationPermission]
  · intro other
    rcases other with ⟨_ | _ | _⟩ <;> simp [requestLocationPermission, hflag]

/-- Witness of C9: the button Enable Location pressed on the bus screen while the
geolocation capability is unavailable. -/
theorem requestLocationPermission_non_success_denied_witness :
    requestLocationPermission.callSite
      { initialState 1700000000000 with activeTab := "bus" } ∧
    (requestLocationPermission { geolocation := none }
      { initialState 1700000000000 with activeTab := "bus" }).state.hasLocationPermission
      = false :=
  ⟨Or.inr ⟨rfl, rfl⟩,
    (requestLocationPermission_non_success_denied { geolocation := none }
      { initialState 1700000000000 with activeTab := "bus" }
      (Or.inr ⟨rfl, rfl⟩) (Or.inl rfl)).1⟩

/-! ## PlaceAdder: frame of an accepted review -/

/-- C10: when `PlaceAdder.handleSubmit` accepts the review form (place name and description
non-empty), the only cell that changes is `reviewData`, which goes back to its initial
value: the trip list, the place listing and the bus-route listing are the same after the
call as before it, and the accepted review appears in none of them. -/
theorem PlaceAdder_handleSubmit_frame (s : State)
    (hname : s.reviewData.placeName ≠ "") (hdesc : s.reviewData.description ≠ "") :
    (PlaceAdder.handleSubmit s).state = { s with reviewData := initialReviewData } ∧
    (PlaceAdder.handleSubmit s).state.trips = s.trips ∧
    (HomeScreen.view (PlaceAdder.handleSubmit s).state).listing = (HomeScreen.view s).listing ∧
    (BusTimings.view (PlaceAdder.handleSubmit s).state).routes = (BusTimings.view s).routes ∧
    HomeScreen.view (PlaceAdder.handleSubmit s).state = HomeScreen.view s ∧
    BusTimings.view (PlaceAdder.handleSubmit s).state = BusTimings.view s ∧
    PlaceFinder.view (PlaceAdder.handleSubmit s).state = PlaceFinder.view s ∧
    (∀ p ∈ (HomeScreen.view (PlaceAdder.handleSubmit s).state).listing, p ∈ places) ∧
    (∀ b ∈ (BusTimings.view (PlaceAdder.handleSubmit s).state).routes, b ∈ busRoutes) := by
  have hc : (jsNot s.reviewData.placeName || jsNot s.reviewData.description) = false := by
    simp [jsNot, hname, hdesc]
  have hstate : (PlaceAdder.handleSubmit s).state = { s with reviewData := initialReviewData } := by
    simp [PlaceAdder.handleSubmit, hc, initialReviewData]
  rw [hstate]
  refine ⟨rfl, rfl, rfl, rfl, rfl, rfl, rfl, ?_, ?_⟩
  · intro p hp
    simpa [HomeScreen.view] using hp
  · intro b hb
    simpa [BusTimings.view] using hb

/-- Witness of C10: a filled review form with an empty location, one trip stored. -/
theorem PlaceAdder_handleSubmit_frame_witness :
    sampleState.reviewData.placeName ≠ "" ∧ sampleState.reviewData.description ≠ "" ∧
    (PlaceAdder.handleSubmit sampleState).state.trips
      = [PlaceFinder.newTrip sampleTripData2 1700000000001] ∧
    (PlaceAdder.handleSubmit sampleState).state.reviewData = initialReviewData :=
  ⟨by decide, by decide,
    (PlaceAdder_handleSubmit_frame sampleState (by decide) (by decide)).2.1,
    congrArg State.reviewData (PlaceAdder_handleSubmit_frame sampleState (by decide) (by decide)).1⟩

/-! ## PlaceAdder: the rating stays in range -/

/-- C11: the rating of the review form is 5 initially; after any sequence of mounts, field
edits, star presses and submissions (accepted or rejected) from the initial state it is a
natural number between 1 and 5; a submission accepted in such a state leaves it at 5; and
every place of the static catalog has a rating between 0 and 5. -/
theorem PlaceAdder_rating_in_range (now : Nat) (events : List PlaceAdder.Event) :
    (initialState now).reviewData.rating = 5 ∧
    1 ≤ (PlaceAdder.run (initialState now) events).reviewData.rating ∧
    (PlaceAdder.run (initialState now) events).reviewData.rating ≤ 5 ∧
    ((PlaceAdder.run (initialState now) events).reviewData.placeName ≠ "" →
      (PlaceAdder.run (initialState now) events).reviewData.description ≠ "" →
      (PlaceAdder.run (initialState now) (events ++ [.submit])).reviewData.rating = 5) ∧
    (∀ p ∈ places, 0 ≤ p.rating ∧ p.rating ≤ 5) := by
  have hrange := PlaceAdder.run_rating events (initialState now)
    (by simp [initialState, initialReviewData])
  refine ⟨rfl, hrange.1, hrange.2, ?_, ?_⟩
  · intro hname hdesc
    have hc : (jsNot (PlaceAdder.run (initialState now) events).reviewData.placeName
        || jsNot (PlaceAdder.run (initialState now) events).reviewData.description) = false := by
      simp [jsNot, hname, hdesc]
    simp [PlaceAdder.run, List.foldl_append, PlaceAdder.apply, PlaceAdder.handleSubmit] at hc ⊢
    simp [hc]
  · simp [places]
    norm_num

/-- Witness of C11: a review is typed, rated with the third star and submitted. -/
theorem PlaceAdder_rating_in_range_witness :
    (PlaceAdder.run (initialState 1700000000000)
      [.editPlaceName "Cafe", .pressStar ⟨2, by decide⟩,
       .editDescription "nice"]).reviewData.rating = 3 ∧
    (PlaceAdder.run (initialState 1700000000000)
      [.editPlaceName "Cafe", .pressStar ⟨2, by decide⟩,
       .editDescription "nice"]).reviewData.placeName ≠ "" ∧
    (PlaceAdder.run (initialState 1700000000000)
      [.editPlaceName "Cafe", .pressStar ⟨2, by decide⟩,
       .editDescription "nice"]).reviewData.description ≠ "" ∧
    (PlaceAdder.run (initialState 1700000000000)
      ([.editPlaceName "Cafe", .pressStar ⟨2, by decide⟩,
        .editDescription "nice"] ++ [.submit])).reviewData.rating = 5 :=
  ⟨by decide, by decide, by decide,
    (PlaceAdder_rating_in_range 1700000000000
      [.editPlaceName "Cafe", .pressStar ⟨2, by decide⟩,
       .editDescription "nice"]).2.2.2.1 (by decide) (by decide)⟩

/-! ## Location permission: a granted state has a location -/

/-- C12: in every state reached from the initial state (no location, flag false) by any
sequence of location resolutions (capability unavailable, error callback or success
callback, re-requests included), if `hasLocationPermission` is true then `userLocation`
is present and holds the latitude and longitude of a successful resolution of the
sequence. -/
theorem granted_has_location (now : Nat) (navigators : List Navigator)
    (hgranted : (resolveAll (initialState now) navigators).hasLocationPermission = true) :
    (initialState now).userLocation = none ∧
    (initialState now).hasLocationPermission = false ∧
    ∃ latitude longitude,
      (resolveAll (initialState now) navigators).userLocation
        = some { lat := latitude, lng := longitude } ∧
      ({ geolocation := some (.position latitude longitude) } : Navigator) ∈ navigators := by
  obtain ⟨hloc, hflag⟩ := resolveAll_invariant navigators [] (initialState now)
    (fun loc h => by simp [initialState] at h) (fun h => by simp [initialState] at h)
  obtain ⟨loc, hl⟩ := hflag hgranted
  refine ⟨rfl, rfl, loc.lat, loc.lng, hl, ?_⟩
  simpa using hloc loc hl

/-- Witness of C12: unavailable, then an error, then a success, then an error, then a
second success. -/
theorem granted_has_location_witness :
    (resolveAll (initialState 1700000000000)
      [{ geolocation := none }, { geolocation := some .positionError },
       { geolocation := some (.position 11.6 76.1) }, { geolocation := some .positionError },
       { geolocation := some (.position 9.7 76.6) }]).hasLocationPermission = true ∧
    ∃ latitude longitude,
      (resolveAll (initialState 1700000000000)
        [{ geolocation := none }, { geolocation := some .positionError },
         { geolocation := some (.position 11.6 76.1) }, { geolocation := some .positionError },
         { geolocation := some (.position 9.7 76.6) }]).userLocation
        = some { lat := latitude, lng := longitude } ∧
      ({ geolocation := some (.position latitude longitude) } : Navigator) ∈
        [{ geolocation := none }, { geolocation := some .positionError },
         { geolocation := some (.position 11.6 76.1) }, { geolocation := some .positionError },
         { geolocation := some (.position 9.7 76.6) }] :=
  ⟨rfl,
    (granted_has_location 1700000000000
      [{ geolocation := none }, { geolocation := some .positionError },
       { geolocation := some (.position 11.6 76.1) }, { geolocation := some .positionError },
       { geolocation := some (.position 9.7 76.6) }] rfl).2.2⟩

end TravelApp
